import Mathlib

/-!
Verification of the order-execution / position-reconciliation core of the
trading bot (`execution.py`, `main.py`, `data_handler.py`).

Shallow embedding conventions:
- Python floats are modelled exactly, over `ℚ`.
- Every network call the code performs is recorded in a trace of
  `GatewayCall`s; the environment (`BuyEnv`, `SellEnv`, `CycleEnv`) decides
  the result of each call, with `none` / error variants standing for a
  raised exception.
- A caught exception is modelled by the branch the `except` clause takes;
  an uncaught exception is modelled by a `raised` flag on the result.
- Python's `ZeroDivisionError` on `x / 0` is modelled by an explicit branch
  on the divisor being zero, since `ℚ` division by zero silently yields 0.
-/

/-- A ccxt-style order record, as built by `place_market_buy` /
`place_market_sell` in `execution.py` (fields `id`, `symbol`, `side`,
`price`, `amount`, `cost`; the constant `type` field is omitted). -/
structure Order where
  id : String
  symbol : String
  side : String
  price : ℚ
  amount : ℚ
  cost : ℚ
deriving DecidableEq, Repr

/-- The vocabulary of gateway (ccxt exchange) calls the core can make.
`fetchOrderStatus` is the status-query endpoint of the gateway interface
(ccxt `fetch_order`); it is part of the interface the code could call for
reconciliation, whether or not the code ever emits it. -/
inductive GatewayCall where
  | fetchBalance
  | fetchTicker (symbol : String)
  | createMarketBuyOrder (symbol : String) (amount : ℚ)
  | createMarketSellOrder (symbol : String) (amount : ℚ)
  | fetchOrderStatus (orderId : String)
deriving DecidableEq, Repr

/-- An order-submission call (as opposed to a read-only query). -/
def GatewayCall.isSubmission : GatewayCall → Bool
  | .createMarketBuyOrder _ _ => true
  | .createMarketSellOrder _ _ => true
  | _ => false

/-- A status-query (reconciliation) call. -/
def GatewayCall.isStatusQuery : GatewayCall → Bool
  | .fetchOrderStatus _ => true
  | _ => false

/-- The order-submission calls contained in a call trace. -/
def submissionCalls (calls : List GatewayCall) : List GatewayCall :=
  calls.filter (fun c => c.isSubmission)

/-- Outbound notifications emitted via `utils.notify_buy_order`,
`utils.notify_sell_order` (which carries the computed profit percentage)
and `utils.notify_error`. -/
inductive Event where
  | notifyBuy
  | notifySell (profitPct : ℚ)
  | notifyError
deriving DecidableEq, Repr

/-- The trading signal produced by the strategy (`strategy.py`). -/
inductive Signal where
  | buy
  | sell
  | wait
deriving DecidableEq, Repr

/-- The configuration values the core reads from `config.py`:
`SYMBOL`, `POSITION_SIZE_USDT`, `DRY_RUN`. -/
structure Config where
  symbol : String
  positionSize : ℚ
  dryRun : Bool

/-- The concrete configuration of `config.py` in live mode:
`SYMBOL = 'BTC/USDT'`, `POSITION_SIZE_USDT = 20`, `DRY_RUN = false`. -/
def cfgLive : Config := { symbol := "BTC/USDT", positionSize := 20, dryRun := false }

/-- `OrderExecutor.check_balance` (`execution.py`). The whole
`fetch_balance()` call plus `balance[currency]['free']` lookup is modelled
by `fetched : Option ℚ` (`none` = any exception raised, giving the
`except` branch which returns `False`). `required = none` models Python's
`required_amount=None`; note the code tests `if required_amount:`
(truthiness), so a present-but-zero required amount also falls through to
the `free_balance > 0` return. -/
def check_balance (fetched : Option ℚ) (required : Option ℚ) : Bool :=
  match fetched with
  | none => false
  | some free =>
    match required with
    | some r => if r ≠ 0 then decide (free ≥ r) else decide (0 < free)
    | none => decide (0 < free)

/-- `OrderExecutor.has_open_position`: the in-memory idempotency check,
`self.current_position is not None`. -/
def has_open_position (current_position : Option Order) : Bool :=
  current_position.isSome

/-- Result of `create_market_buy_order`: a filled order, or a raised
`ccxt.InsufficientFunds`, or any other raised exception. -/
inductive BuySubmitResult where
  | filled (o : Order)
  | insufficientFunds
  | err

/-- Gateway behaviour for one buy attempt: the result of `fetch_ticker`
(`none` = raises) and, given the requested amount, the result of
`create_market_buy_order`. `now` feeds the DRY_RUN fake order id. -/
structure BuyEnv where
  ticker : Option ℚ
  submit : ℚ → BuySubmitResult
  now : Nat

/-- Result of one executor operation: the updated `current_position`, the
Python return value, the gateway calls made, the notifications emitted,
whether an uncaught exception escapes to the caller, and the list of
`current_position` values observed at the successive sequential points of
the operation (entry, before the gateway call, at return). -/
structure ExecResult where
  state : Option Order
  ret : Option Order
  calls : List GatewayCall
  events : List Event
  raised : Bool
  observed : List (Option Order)

/-- `OrderExecutor.place_market_buy` (`execution.py`). In DRY_RUN mode the
fake-order construction sits outside any `try`, so a ticker failure (or a
zero price making `amount_usdt / price` raise) escapes to the caller. In
live mode the whole body is inside `try`: the ticker fetch, the amount
computation `amount = amount_usdt / current_price` (pre-trade quote), and
the submission; `InsufficientFunds` and every other exception are caught,
notify an error and return `None` leaving `current_position` unchanged. -/
def place_market_buy (cfg : Config) (st : Option Order) (symbol : String)
    (amount_usdt : ℚ) (env : BuyEnv) : ExecResult :=
  if cfg.dryRun then
    match env.ticker with
    | none =>
      { state := st, ret := none, calls := [.fetchTicker symbol], events := [],
        raised := true, observed := [st, st] }
    | some price =>
      if price = 0 then
        { state := st, ret := none, calls := [.fetchTicker symbol], events := [],
          raised := true, observed := [st, st] }
      else
        let fake : Order :=
          { id := "DRY_RUN_" ++ toString env.now, symbol := symbol, side := "buy",
            price := price, amount := amount_usdt / price, cost := amount_usdt }
        { state := some fake, ret := some fake, calls := [.fetchTicker symbol],
          events := [.notifyBuy], raised := false, observed := [st, st, some fake] }
  else
    match env.ticker with
    | none =>
      { state := st, ret := none, calls := [.fetchTicker symbol],
        events := [.notifyError], raised := false, observed := [st, st] }
    | some price =>
      if price = 0 then
        { state := st, ret := none, calls := [.fetchTicker symbol],
          events := [.notifyError], raised := false, observed := [st, st] }
      else
        let amount := amount_usdt / price
        match env.submit amount with
        | .filled o =>
          { state := some o, ret := some o,
            calls := [.fetchTicker symbol, .createMarketBuyOrder symbol amount],
            events := [.notifyBuy], raised := false, observed := [st, st, some o] }
        | .insufficientFunds =>
          { state := st, ret := none,
            calls := [.fetchTicker symbol, .createMarketBuyOrder symbol amount],
            events := [.notifyError], raised := false, observed := [st, st, st] }
        | .err =>
          { state := st, ret := none,
            calls := [.fetchTicker symbol, .createMarketBuyOrder symbol amount],
            events := [.notifyError], raised := false, observed := [st, st, st] }

/-- Gateway behaviour for one sell attempt: the result of
`create_market_sell_order` given the amount (`none` = raises, covering both
rejection and transport failure — the code's single `except Exception`),
and the ticker used by the DRY_RUN branch. -/
structure SellEnv where
  submit : ℚ → Option Order
  ticker : Option ℚ
  now : Nat

/-- `OrderExecutor.place_market_sell` (`execution.py`), as called from
`main.py` with `amount=None`, so the amount sold is
`current_position.get('amount', 0)`. With no position it returns `None`
without touching the gateway. In DRY_RUN the ticker fetch and the profit
division sit outside any `try`. In live mode the submission and the profit
computation `((current_price - buy_price) / buy_price) * 100` (with
`current_price = order['price']`, the fill price) are inside `try`; on any
exception it notifies an error and returns `None`, leaving
`current_position` unchanged. Only a fully successful fill clears
`current_position`. -/
def place_market_sell (cfg : Config) (st : Option Order) (symbol : String)
    (env : SellEnv) : ExecResult :=
  match st with
  | none =>
    { state := none, ret := none, calls := [], events := [], raised := false,
      observed := [none, none] }
  | some p =>
    let amount := p.amount
    if cfg.dryRun then
      match env.ticker with
      | none =>
        { state := st, ret := none, calls := [.fetchTicker symbol], events := [],
          raised := true, observed := [st, st] }
      | some price =>
        if p.price = 0 then
          { state := st, ret := none, calls := [.fetchTicker symbol], events := [],
            raised := true, observed := [st, st] }
        else
          let profit := (price - p.price) / p.price * 100
          let fake : Order :=
            { id := "DRY_RUN_SELL_" ++ toString env.now, symbol := symbol,
              side := "sell", price := price, amount := amount,
              cost := amount * price }
          { state := none, ret := some fake, calls := [.fetchTicker symbol],
            events := [.notifySell profit], raised := false,
            observed := [st, st, none] }
    else
      match env.submit amount with
      | none =>
        { state := st, ret := none,
          calls := [.createMarketSellOrder symbol amount],
          events := [.notifyError], raised := false, observed := [st, st, st] }
      | some o =>
        if p.price = 0 then
          { state := st, ret := none,
            calls := [.createMarketSellOrder symbol amount],
            events := [.notifyError], raised := false, observed := [st, st, st] }
        else
          let profit := (o.price - p.price) / p.price * 100
          { state := none, ret := some o,
            calls := [.createMarketSellOrder symbol amount],
            events := [.notifySell profit], raised := false,
            observed := [st, st, none] }

/-- The cycle-level classification `TradingBot.run_once` logs for the
branch it took (`main.py`). -/
inductive CycleNote where
  | dataFail
  | alreadyPositioned
  | insufficientFunds
  | buyFilled
  | buyFailed
  | noPosition
  | sellFilled
  | sellFailed
  | waited
  | cycleError
deriving DecidableEq, Repr

/-- Environment for one `run_once` cycle: whether `fetch_ohlcv` returned a
dataframe (it catches all its exceptions and returns `None` on failure),
the signal the strategy produces, the USDT free balance seen by
`check_balance` (`none` = its fetch raised), and the gateway behaviour of
the buy and sell paths. -/
structure CycleEnv where
  dataOk : Bool
  signal : Signal
  balance : Option ℚ
  buy : BuyEnv
  sell : SellEnv

/-- Result of one `run_once` cycle. -/
structure CycleResult where
  state : Option Order
  success : Bool
  calls : List GatewayCall
  events : List Event
  note : CycleNote

/-- `TradingBot.run_once` (`main.py`): fetch data; on `None` return
`False`. On BUY: if `has_open_position()` skip (idempotency guard); else
`check_balance('USDT', POSITION_SIZE_USDT)` and skip when it is `False`;
else `place_market_buy(SYMBOL, POSITION_SIZE_USDT)`. On SELL: if no
position skip; else `place_market_sell(SYMBOL)`. On WAIT: no-op. All these
paths return `True`; an exception escaping the executor is caught by the
cycle-level `except`, notifies an error and returns `False`. -/
def run_once (cfg : Config) (st : Option Order) (env : CycleEnv) : CycleResult :=
  if !env.dataOk then
    { state := st, success := false, calls := [], events := [], note := .dataFail }
  else
    match env.signal with
    | .buy =>
      if has_open_position st then
        { state := st, success := true, calls := [], events := [],
          note := .alreadyPositioned }
      else if !check_balance env.balance (some cfg.positionSize) then
        { state := st, success := true, calls := [.fetchBalance], events := [],
          note := .insufficientFunds }
      else
        let r := place_market_buy cfg st cfg.symbol cfg.positionSize env.buy
        if r.raised then
          { state := r.state, success := false, calls := .fetchBalance :: r.calls,
            events := r.events ++ [.notifyError], note := .cycleError }
        else
          { state := r.state, success := true, calls := .fetchBalance :: r.calls,
            events := r.events,
            note := if r.ret.isSome then .buyFilled else .buyFailed }
    | .sell =>
      if !has_open_position st then
        { state := st, success := true, calls := [], events := [],
          note := .noPosition }
      else
        let r := place_market_sell cfg st cfg.symbol env.sell
        if r.raised then
          { state := r.state, success := false, calls := r.calls,
            events := r.events ++ [.notifyError], note := .cycleError }
        else
          { state := r.state, success := true, calls := r.calls,
            events := r.events,
            note := if r.ret.isSome then .sellFilled else .sellFailed }
    | .wait =>
      { state := st, success := true, calls := [], events := [], note := .waited }

/-- The sequence of `current_position` values observed after each cycle of
a run, starting from `st`. -/
def cycleStates (cfg : Config) (st : Option Order) : List CycleEnv → List (Option Order)
  | [] => [st]
  | e :: es => st :: cycleStates cfg (run_once cfg st e).state es

/-- Number of open (non-NONE) positions the executor holds for symbol `s`:
the executor's whole position store is the single nullable field
`current_position`. -/
def openCount (st : Option Order) (s : String) : Nat :=
  match st with
  | none => 0
  | some o => if o.symbol = s then 1 else 0

/-- Outcome of one attempt of the function passed to
`DataHandler.retry_on_network_error`: a value, a raised
`ccxt.NetworkError` / `ccxt.RequestTimeout` (the only exceptions the
wrapper catches), or any other raised exception (which propagates out of
the wrapper). -/
inductive AttemptOutcome where
  | ok (o : Order)
  | netErr
  | otherErr
deriving DecidableEq, Repr

/-- Loop body of `retry_on_network_error`: `attempt` is the current loop
index, `remaining` the number of attempts left (so the call at loop index
`attempt` exists iff `remaining > 0`; `attempt < max_retries - 1` is
exactly `remaining - 1 > 0` after consuming this attempt). `Except.error`
models a non-network exception propagating; exhaustion returns
`Except.ok none` — the Python `return None`. -/
def retryAux (func : Nat → AttemptOutcome) : Nat → Nat → Except Unit (Option Order)
  | _, 0 => Except.ok none
  | attempt, r + 1 =>
    match func attempt with
    | .ok o => Except.ok (some o)
    | .otherErr => Except.error ()
    | .netErr =>
      if r = 0 then Except.ok none
      else retryAux func (attempt + 1) r

/-- `DataHandler.retry_on_network_error` (`data_handler.py`): retries the
wrapped call on `ccxt.NetworkError` / `ccxt.RequestTimeout` up to
`max_retries` times and returns `None` once the attempts are exhausted.
`func i` is the outcome of the `i`-th invocation of the wrapped
zero-argument function (the same closure re-invoked unchanged on every
attempt). -/
def retry_on_network_error (func : Nat → AttemptOutcome) (max_retries : Nat) :
    Except Unit (Option Order) :=
  retryAux func 0 max_retries

/-- Outcome of one iteration of `TradingBot.run_loop` (`main.py`):
`run_once` returned `True` or `False`, an exception escaped `run_once`
(caught by the loop's generic `except Exception`), or a
`KeyboardInterrupt` arrived. -/
inductive LoopEvent where
  | ok
  | fail
  | exc
  | interrupt
deriving DecidableEq, Repr

/-- One iteration of the `while True` body of `run_loop` acting on
`retry_count`: `some r` = the loop continues with counter `r`, `none` =
the loop `break`s after this iteration. A successful cycle resets the
counter; a failed cycle or a caught exception increments it and the loop
breaks when the counter reaches `max_retries = 5`; `KeyboardInterrupt`
breaks immediately. -/
def loopStep (retry_count : Nat) : LoopEvent → Option Nat
  | .ok => some 0
  | .fail => if retry_count + 1 ≥ 5 then none else some (retry_count + 1)
  | .exc => if retry_count + 1 ≥ 5 then none else some (retry_count + 1)
  | .interrupt => none

/-- `TradingBot.run_loop` over a finite prefix of iteration outcomes:
returns the number of cycles started and `some finalCounter` if the loop
is still running when the outcomes run out (`none` = it terminated by
`break`). -/
def run_loop (retry_count : Nat) : List LoopEvent → Nat × Option Nat
  | [] => (0, some retry_count)
  | e :: es =>
    match loopStep retry_count e with
    | none => (1, none)
    | some r2 =>
      let p := run_loop r2 es
      (p.1 + 1, p.2)

/-- Spec-side position status from the specification's data model
(NONE / OPEN / CLOSING). Modelled from the spec: the source has no such
tagged status; its state is the single nullable `current_position`. -/
inductive PosStatus where
  | NONE
  | OPEN
  | CLOSING
deriving DecidableEq, Repr

/-- Abstraction of the source's position state into the spec-side status:
`current_position = None` is NONE, a present record is OPEN. The source
has no representation at all for CLOSING. -/
def specStatus : Option Order → PosStatus
  | none => .NONE
  | some _ => .OPEN

/-! Concrete fixtures used by witnesses and counterexamples. -/

/-- A filled buy order: 20 USDT of BTC at price 100. -/
def oEx : Order :=
  { id := "1", symbol := "BTC/USDT", side := "buy", price := 100,
    amount := 1 / 5, cost := 20 }

/-- Buy gateway that quotes 100 and fills every submission with `oEx`. -/
def buyEnvFill : BuyEnv := { ticker := some 100, submit := fun _ => .filled oEx, now := 0 }

/-- Buy gateway that quotes 100 and raises a transport error on every
submission attempt. -/
def buyEnvNetErr : BuyEnv := { ticker := some 100, submit := fun _ => .err, now := 0 }

/-- Sell gateway whose submission always raises (rejection). -/
def sellEnvRejected : SellEnv := { submit := fun _ => none, ticker := some 100, now := 0 }

/-- A full cycle environment: data available, BUY signal, 100 USDT free,
buy fills with `oEx`. -/
def envBuyFill : CycleEnv :=
  { dataOk := true, signal := .buy, balance := some 100, buy := buyEnvFill,
    sell := sellEnvRejected }

/-- A BUY cycle whose submission raises a transport error each time. -/
def envBuyNetErr : CycleEnv :=
  { dataOk := true, signal := .buy, balance := some 100, buy := buyEnvNetErr,
    sell := sellEnvRejected }

/-- A BUY cycle with only 15 USDT free (required notional is 20). -/
def envBuyPoor : CycleEnv :=
  { dataOk := true, signal := .buy, balance := some 15, buy := buyEnvFill,
    sell := sellEnvRejected }

/-- A BUY cycle whose balance fetch raises. -/
def envBuyBalFail : CycleEnv :=
  { dataOk := true, signal := .buy, balance := none, buy := buyEnvFill,
    sell := sellEnvRejected }

/-- A SELL cycle whose sell submission raises (rejection). -/
def envSellRejected : CycleEnv :=
  { dataOk := true, signal := .sell, balance := some 100, buy := buyEnvFill,
    sell := sellEnvRejected }

/-- An open position entered at price 100 (0.2 BTC for 20 USDT). -/
def pEntry100 : Order :=
  { id := "4", symbol := "BTC/USDT", side := "buy", price := 100,
    amount := 1 / 5, cost := 20 }

/-- An open position entered at price 50000. -/
def pEntry50000 : Order :=
  { id := "2", symbol := "BTC/USDT", side := "buy", price := 50000,
    amount := 1, cost := 50000 }

/-- Sell gateway that fills any amount at price `x`. -/
def sellEnvAt (x : ℚ) : SellEnv :=
  { submit := fun a =>
      some { id := "3", symbol := "BTC/USDT", side := "sell", price := x,
             amount := a, cost := a * x },
    ticker := some x, now := 0 }

/-- The fill order `sellEnvAt 51500` returns for amount 1. -/
def oSell51500 : Order :=
  { id := "3", symbol := "BTC/USDT", side := "sell", price := 51500,
    amount := 1, cost := 1 * 51500 }

/-- Buy gateway with slippage: quotes 100 but fills the requested base
amount at price 110. -/
def buyEnvSlip : BuyEnv :=
  { ticker := some 100,
    submit := fun a =>
      .filled { id := "5", symbol := "BTC/USDT", side := "buy", price := 110,
                amount := a, cost := a * 110 },
    now := 0 }

/-! Helper lemmas. -/

theorem openCount_le_one (st : Option Order) (s : String) : openCount st s ≤ 1 := by
  cases st with
  | none => simp [openCount]
  | some o => simp only [openCount]; split <;> simp

/-! Claims. -/

/-- C1: for every symbol and every reachable state of the executor (any
sequence of cycles from the initial empty state), at most one open
position exists for that symbol: the executor's entire position store is
the single nullable `current_position` field, so every state whatsoever
holds at most one position. -/
theorem at_most_one_open_position
    (cfg : Config) (envs : List CycleEnv) (s : String) :
    ∀ st ∈ cycleStates cfg none envs, openCount st s ≤ 1 := by
  intro st _
  exact openCount_le_one st s

/-- Witness for C1: the state reached after one filled BUY cycle is in the
trace and holds at most one BTC/USDT position. -/
theorem at_most_one_open_position_witness :
    some oEx ∈ cycleStates cfgLive none [envBuyFill] ∧
    openCount (some oEx) "BTC/USDT" ≤ 1 := by
  have heq : cycleStates cfgLive none [envBuyFill] = [none, some oEx] := by rfl
  have hmem : some oEx ∈ cycleStates cfgLive none [envBuyFill] := by rw [heq]; simp
  exact ⟨hmem, at_most_one_open_position cfgLive [envBuyFill] "BTC/USDT" (some oEx) hmem⟩

/-- C2: from a state with no open position, two consecutive BUY cycles
with no intervening SELL submit exactly one order: the first BUY (which
fills) performs the single submission and opens the position, and the
second BUY is rejected as already-positioned before any gateway call. -/
theorem two_buys_single_submission
    (cfg : Config) (e1 e2 : CycleEnv) (o : Order) (q : ℚ)
    (hdry : cfg.dryRun = false)
    (hd1 : e1.dataOk = true) (hs1 : e1.signal = .buy)
    (hd2 : e2.dataOk = true) (hs2 : e2.signal = .buy)
    (hbal : check_balance e1.balance (some cfg.positionSize) = true)
    (ht : e1.buy.ticker = some q) (hq : q ≠ 0)
    (hfill : e1.buy.submit (cfg.positionSize / q) = .filled o) :
    submissionCalls (run_once cfg none e1).calls =
        [.createMarketBuyOrder cfg.symbol (cfg.positionSize / q)] ∧
    (run_once cfg (run_once cfg none e1).state e2).note = .alreadyPositioned ∧
    submissionCalls (run_once cfg (run_once cfg none e1).state e2).calls = [] ∧
    submissionCalls ((run_once cfg none e1).calls ++
        (run_once cfg (run_once cfg none e1).state e2).calls) =
      [.createMarketBuyOrder cfg.symbol (cfg.positionSize / q)] := by
  have h1 : run_once cfg none e1 =
      { state := some o, success := true,
        calls := [.fetchBalance, .fetchTicker cfg.symbol,
          .createMarketBuyOrder cfg.symbol (cfg.positionSize / q)],
        events := [.notifyBuy], note := .buyFilled } := by
    simp [run_once, place_market_buy, has_open_position, hd1, hs1, hbal, hdry,
      ht, hq, hfill]
  have h2 : run_once cfg (some o) e2 =
      { state := some o, success := true, calls := [], events := [],
        note := .alreadyPositioned } := by
    simp [run_once, has_open_position, hd2, hs2]
  rw [h1, h2]
  refine ⟨?_, rfl, rfl, ?_⟩ <;>
    simp [submissionCalls, GatewayCall.isSubmission]

/-- Witness for C2: concrete run — balance 100, ticker 100, the first BUY
fills with `oEx`, the second BUY makes no gateway call. -/
theorem two_buys_single_submission_witness :
    submissionCalls (run_once cfgLive none envBuyFill).calls =
        [.createMarketBuyOrder cfgLive.symbol (cfgLive.positionSize / 100)] ∧
    (run_once cfgLive (run_once cfgLive none envBuyFill).state envBuyFill).note =
        .alreadyPositioned ∧
    submissionCalls
        (run_once cfgLive (run_once cfgLive none envBuyFill).state envBuyFill).calls = [] ∧
    submissionCalls ((run_once cfgLive none envBuyFill).calls ++
        (run_once cfgLive (run_once cfgLive none envBuyFill).state envBuyFill).calls) =
      [.createMarketBuyOrder cfgLive.symbol (cfgLive.positionSize / 100)] :=
  two_buys_single_submission cfgLive envBuyFill envBuyFill oEx 100
    rfl rfl rfl rfl rfl (by decide) rfl (by decide) rfl

/-- C6: a BUY cycle with free balance strictly below the required notional
takes the insufficient-funds branch and makes no order-submission call;
the position stays empty. -/
theorem insufficient_balance_blocks_buy
    (cfg : Config) (st : Option Order) (env : CycleEnv) (free : ℚ)
    (hd : env.dataOk = true) (hs : env.signal = .buy) (hst : st = none)
    (hb : env.balance = some free) (hlt : free < cfg.positionSize)
    (hps : cfg.positionSize ≠ 0) :
    (run_once cfg st env).note = .insufficientFunds ∧
    submissionCalls (run_once cfg st env).calls = [] ∧
    (run_once cfg st env).state = none := by
  subst hst
  have hcb : check_balance (some free) (some cfg.positionSize) = false := by
    simp [check_balance, hps]
    exact hlt
  simp [run_once, has_open_position, hd, hs, hb, hcb, submissionCalls,
    GatewayCall.isSubmission]

/-- Witness for C6: balance 15 USDT, required 20 USDT. -/
theorem insufficient_balance_blocks_buy_witness :
    (run_once cfgLive none envBuyPoor).note = .insufficientFunds ∧
    submissionCalls (run_once cfgLive none envBuyPoor).calls = [] ∧
    (run_once cfgLive none envBuyPoor).state = none :=
  insufficient_balance_blocks_buy cfgLive none envBuyPoor 15
    rfl rfl rfl rfl (by decide) (by decide)

/-- C10: a balance check whose fetch raises returns `False`; consequently
a BUY cycle with a failing balance query makes no submission and leaves
the state unchanged; and with no required amount the check returns
whether the free balance is strictly positive. -/
theorem check_balance_failure_handling :
    (∀ required, check_balance none required = false) ∧
    (∀ (cfg : Config) (st : Option Order) (env : CycleEnv),
      env.dataOk = true → env.signal = .buy → env.balance = none →
      submissionCalls (run_once cfg st env).calls = [] ∧
      (run_once cfg st env).state = st) ∧
    (∀ free : ℚ, check_balance (some free) none = decide (0 < free)) := by
  refine ⟨fun _ => rfl, ?_, fun _ => rfl⟩
  intro cfg st env hd hs hb
  cases st with
  | none =>
    have hcb : check_balance env.balance (some cfg.positionSize) = false := by
      simp [hb, check_balance]
    simp [run_once, has_open_position, hd, hs, hcb, submissionCalls,
      GatewayCall.isSubmission]
  | some o =>
    simp [run_once, has_open_position, hd, hs, submissionCalls,
      GatewayCall.isSubmission]

/-- Witness for C10: a failed fetch yields `False`; a concrete BUY cycle
with a raising balance query submits nothing; balance 5 with no required
amount passes the positivity check. -/
theorem check_balance_failure_handling_witness :
    check_balance none (some 20) = false ∧
    (submissionCalls (run_once cfgLive none envBuyBalFail).calls = [] ∧
      (run_once cfgLive none envBuyBalFail).state = none) ∧
    check_balance (some 5) none = decide ((0 : ℚ) < 5) :=
  ⟨check_balance_failure_handling.1 (some 20),
   check_balance_failure_handling.2.1 cfgLive none envBuyBalFail rfl rfl rfl,
   check_balance_failure_handling.2.2 5⟩

/-- C8: for every live filled sell from a position with positive entry
price, the profit percentage carried by the sell notification is
`(exit - entry) / entry * 100`, with the exit price taken from the fill;
in particular entry 50000 / exit 51500 reports +3% and entry 100 /
exit 97 reports -3%. -/
theorem profit_percentage_formula :
    (∀ (cfg : Config) (st : Option Order) (p o : Order) (env : SellEnv),
      cfg.dryRun = false → st = some p → 0 < p.price →
      env.submit p.amount = some o →
      (place_market_sell cfg st cfg.symbol env).events =
        [.notifySell ((o.price - p.price) / p.price * 100)]) ∧
    (place_market_sell cfgLive (some pEntry50000) "BTC/USDT" (sellEnvAt 51500)).events =
      [.notifySell 3] ∧
    (place_market_sell cfgLive (some pEntry100) "BTC/USDT" (sellEnvAt 97)).events =
      [.notifySell (-3)] := by
  refine ⟨?_, ?_, ?_⟩
  · intro cfg st p o env hdry hst hp hfill
    subst hst
    have hne : p.price ≠ 0 := ne_of_gt hp
    simp [place_market_sell, hdry, hfill, hne]
  · simp [place_market_sell, sellEnvAt, pEntry50000, cfgLive]
    norm_num
  · simp [place_market_sell, sellEnvAt, pEntry100, cfgLive]
    norm_num

/-- Witness for C8: the general formula applied to the concrete entry
50000 / exit 51500 fill. -/
theorem profit_percentage_formula_witness :
    (place_market_sell cfgLive (some pEntry50000) cfgLive.symbol (sellEnvAt 51500)).events =
      [.notifySell ((oSell51500.price - pEntry50000.price) / pEntry50000.price * 100)] :=
  profit_percentage_formula.1 cfgLive (some pEntry50000) pEntry50000 oSell51500
    (sellEnvAt 51500) rfl rfl (by norm_num [pEntry50000]) rfl

theorem run_once_sell_calls (cfg : Config) (st : Option Order) (env : CycleEnv)
    (hd : env.dataOk = true) (hs : env.signal = .sell)
    (hop : has_open_position st = true) :
    (run_once cfg st env).calls = (place_market_sell cfg st cfg.symbol env.sell).calls := by
  simp only [run_once, hd, hs, hop, Bool.not_true, Bool.false_eq_true, if_false]
  split <;> rfl

/-- C5 counterexample: in the concrete rejected-sell run (position open at
entry 100, sell submission rejected), the position status observed at
every sequential point of the sell is OPEN — there is no CLOSING instant,
so no CLOSING→OPEN (`abort_close`) transition occurs; the source has no
CLOSING state at all. -/
theorem failed_sell_never_enters_closing :
    (place_market_sell cfgLive (some pEntry100) "BTC/USDT" sellEnvRejected).observed.map
        specStatus = [.OPEN, .OPEN, .OPEN] ∧
    PosStatus.CLOSING ∉
      (place_market_sell cfgLive (some pEntry100) "BTC/USDT" sellEnvRejected).observed.map
        specStatus := by
  have heq : (place_market_sell cfgLive (some pEntry100) "BTC/USDT" sellEnvRejected).observed.map
      specStatus = [.OPEN, .OPEN, .OPEN] := by rfl
  rw [heq]
  exact ⟨rfl, by simp⟩

/-- C5 (amended): when a live sell submission fails, the position record is
unchanged at every observed point (it never leaves the open state — there
is no CLOSING intermediate), the call returns `None`, and the position
remains tradable: a following SELL cycle reaches the gateway with a fresh
sell submission for the same tracked amount. -/
theorem failed_sell_leaves_position_open
    (cfg : Config) (st : Option Order) (p : Order) (env : SellEnv) (e2 : CycleEnv)
    (hdry : cfg.dryRun = false) (hst : st = some p)
    (hrej : env.submit p.amount = none)
    (hd2 : e2.dataOk = true) (hs2 : e2.signal = .sell) :
    (place_market_sell cfg st cfg.symbol env).state = some p ∧
    (place_market_sell cfg st cfg.symbol env).ret = none ∧
    (∀ q ∈ (place_market_sell cfg st cfg.symbol env).observed, q = some p) ∧
    (run_once cfg (place_market_sell cfg st cfg.symbol env).state e2).calls =
      [.createMarketSellOrder cfg.symbol p.amount] := by
  subst hst
  have h1 : place_market_sell cfg (some p) cfg.symbol env =
      { state := some p, ret := none,
        calls := [.createMarketSellOrder cfg.symbol p.amount],
        events := [.notifyError], raised := false,
        observed := [some p, some p, some p] } := by
    simp [place_market_sell, hdry, hrej]
  refine ⟨by rw [h1], by rw [h1], ?_, ?_⟩
  · rw [h1]
    intro q hq
    simpa using hq
  · rw [h1]
    have hcalls := run_once_sell_calls cfg (some p) e2 hd2 hs2 (by rfl)
    rw [hcalls]
    rcases h2 : e2.sell.submit p.amount with _ | o
    · simp [place_market_sell, hdry, h2]
    · by_cases hp0 : p.price = 0 <;> simp [place_market_sell, hdry, h2, hp0]

/-- Witness for C5 (amended): the concrete rejected sell at entry 100,
followed by a second SELL cycle that submits again. -/
theorem failed_sell_leaves_position_open_witness :
    (place_market_sell cfgLive (some pEntry100) cfgLive.symbol sellEnvRejected).state =
        some pEntry100 ∧
    (place_market_sell cfgLive (some pEntry100) cfgLive.symbol sellEnvRejected).ret = none ∧
    (∀ q ∈ (place_market_sell cfgLive (some pEntry100) cfgLive.symbol sellEnvRejected).observed,
      q = some pEntry100) ∧
    (run_once cfgLive
        (place_market_sell cfgLive (some pEntry100) cfgLive.symbol sellEnvRejected).state
        envSellRejected).calls =
      [.createMarketSellOrder cfgLive.symbol pEntry100.amount] :=
  failed_sell_leaves_position_open cfgLive (some pEntry100) pEntry100 sellEnvRejected
    envSellRejected rfl rfl rfl rfl rfl

/-- C7 counterexample: with pre-trade quote 100 and actual fill price 110
(slippage), a 20-USDT notional buy records quantity 20/100 = 1/5 — the
notional divided by the pre-trade ticker quote — while the claim's value,
notional divided by the actual fill price, is 20/110 ≠ 1/5. -/
theorem buy_quantity_slippage_counterexample :
    (place_market_buy cfgLive none "BTC/USDT" 20 buyEnvSlip).state.map Order.amount =
      some (1 / 5) ∧
    (place_market_buy cfgLive none "BTC/USDT" 20 buyEnvSlip).state.map Order.price =
      some 110 ∧
    (1 / 5 : ℚ) ≠ 20 / 110 := by
  refine ⟨?_, ?_, by norm_num⟩ <;> norm_num [place_market_buy, buyEnvSlip, cfgLive]

/-- C7 (amended): a live notional buy computes the quantity from the
pre-trade ticker quote — the submitted amount is `notional / quote` — and
on a fill records the gateway-returned order as the position, so under
slippage the recorded quantity is not `notional / fill_price`. -/
theorem buy_quantity_uses_pretrade_quote
    (cfg : Config) (st : Option Order) (env : BuyEnv) (q n : ℚ)
    (hdry : cfg.dryRun = false) (ht : env.ticker = some q) (hq : q ≠ 0) :
    (place_market_buy cfg st cfg.symbol n env).calls =
      [.fetchTicker cfg.symbol, .createMarketBuyOrder cfg.symbol (n / q)] ∧
    ∀ o, env.submit (n / q) = .filled o →
      (place_market_buy cfg st cfg.symbol n env).state = some o := by
  constructor
  · rcases h : env.submit (n / q) with o | _ | _ <;>
      simp [place_market_buy, hdry, ht, hq, h]
  · intro o ho
    simp [place_market_buy, hdry, ht, hq, ho]

/-- Witness for C7 (amended): quote 100, notional 20 — the submission
carries amount 20/100 and the slippage fill is recorded as returned. -/
theorem buy_quantity_uses_pretrade_quote_witness :
    (place_market_buy cfgLive none cfgLive.symbol 20 buyEnvSlip).calls =
      [.fetchTicker cfgLive.symbol, .createMarketBuyOrder cfgLive.symbol (20 / 100)] ∧
    (∀ o, buyEnvSlip.submit (20 / 100) = .filled o →
      (place_market_buy cfgLive none cfgLive.symbol 20 buyEnvSlip).state = some o) :=
  buy_quantity_uses_pretrade_quote cfgLive none buyEnvSlip 100 20 rfl rfl (by norm_num)

/-- C3 evaluation: exhausting the retry wrapper's attempts on transport
errors returns plain `None` (there is no distinguished Unknown outcome),
and a BUY cycle whose submission raises a transport error ends with no
position, no status-query (reconciliation) call, and a cycle reported as
successful; the next BUY cycle then submits a fresh order — retry/transport
exhaustion is treated as "no order happened". -/
theorem retry_exhaustion_treated_as_no_order :
    retry_on_network_error (fun _ => .netErr) 3 = Except.ok none ∧
    (run_once cfgLive none envBuyNetErr).note = .buyFailed ∧
    (run_once cfgLive none envBuyNetErr).state = none ∧
    (run_once cfgLive none envBuyNetErr).success = true ∧
    ((run_once cfgLive none envBuyNetErr).calls.all fun c => !c.isStatusQuery) = true ∧
    submissionCalls (run_once cfgLive
        (run_once cfgLive none envBuyNetErr).state envBuyFill).calls =
      [.createMarketBuyOrder "BTC/USDT" (20 / 100)] :=
  ⟨rfl, rfl, rfl, rfl, rfl, rfl⟩

/-- C4 evaluation: the complete content of the gateway calls a filled BUY
cycle makes — the order submission carries only the symbol and the amount,
with no idempotency key of any kind; and the retry wrapper that times out
twice and succeeds on the third attempt simply re-invokes the identical
keyless closure each time. -/
theorem order_submission_has_no_idempotency_key :
    (run_once cfgLive none envBuyFill).calls =
      [.fetchBalance, .fetchTicker "BTC/USDT",
        .createMarketBuyOrder "BTC/USDT" (20 / 100)] ∧
    retry_on_network_error (fun i => if i < 2 then .netErr else .ok oEx) 3 =
      Except.ok (some oEx) :=
  ⟨rfl, rfl⟩

theorem loopStep_some_lt {r r2 : Nat} {e : LoopEvent} (h : loopStep r e = some r2) :
    r2 < 5 := by
  cases e with
  | ok =>
    simp only [loopStep, Option.some.injEq] at h
    omega
  | fail =>
    by_cases hc : r + 1 ≥ 5
    · simp [loopStep, hc] at h
    · simp only [loopStep, if_neg hc, Option.some.injEq] at h
      omega
  | exc =>
    by_cases hc : r + 1 ≥ 5
    · simp [loopStep, hc] at h
    · simp only [loopStep, if_neg hc, Option.some.injEq] at h
      omega
  | interrupt => simp [loopStep] at h

theorem run_loop_replicate_fail_le (k : Nat) :
    ∀ (r : Nat) (post : List LoopEvent), 5 ≤ r + k → r < 5 →
      (run_loop r (List.replicate k .fail ++ post)).1 ≤ k := by
  induction k with
  | zero =>
    intro r post h5 hr
    omega
  | succ k ih =>
    intro r post h5 hr
    by_cases hc : r + 1 ≥ 5
    · have h1 : (run_loop r (List.replicate (k + 1) .fail ++ post)).1 = 1 := by
        simp [List.replicate_succ, run_loop, loopStep, hc]
      omega
    · have h1 : (run_loop r (List.replicate (k + 1) .fail ++ post)).1 =
          (run_loop (r + 1) (List.replicate k .fail ++ post)).1 + 1 := by
        simp [List.replicate_succ, run_loop, loopStep, hc]
      have := ih (r + 1) post (by omega) (by omega)
      omega

theorem run_loop_front_le (pre : List LoopEvent) :
    ∀ (r : Nat) (L : List LoopEvent) (B : Nat), r < 5 →
      (∀ r', r' < 5 → (run_loop r' L).1 ≤ B) →
      (run_loop r (pre ++ L)).1 ≤ pre.length + B := by
  induction pre with
  | nil =>
    intro r L B hr hB
    simpa using hB r hr
  | cons e pre ih =>
    intro r L B hr hB
    cases he : loopStep r e with
    | none =>
      have h1 : (run_loop r ((e :: pre) ++ L)).1 = 1 := by
        simp [run_loop, he]
      simp only [List.length_cons]
      omega
    | some r2 =>
      have hr2 := loopStep_some_lt he
      have h1 : (run_loop r ((e :: pre) ++ L)).1 = (run_loop r2 (pre ++ L)).1 + 1 := by
        simp [run_loop, he]
      have := ih r2 L B hr2 hB
      simp only [List.length_cons]
      omega

/-- C9: in `run_loop`, a successful cycle resets the consecutive-failure
counter to zero, a failed cycle (or a caught cycle exception) increments
it, the loop breaks as soon as the incremented counter reaches 5, and
for any iteration-outcome sequence containing five consecutive failures
the loop starts no cycle beyond them: at most `pre.length + 5` cycles run
in total. -/
theorem run_loop_failure_counter :
    (∀ r, loopStep r .ok = some 0) ∧
    (∀ r, r + 1 < 5 → loopStep r .fail = some (r + 1)) ∧
    (∀ r, r + 1 < 5 → loopStep r .exc = some (r + 1)) ∧
    (∀ r, 5 ≤ r + 1 → loopStep r .fail = none) ∧
    (∀ pre post : List LoopEvent,
      (run_loop 0 (pre ++ (List.replicate 5 .fail ++ post))).1 ≤ pre.length + 5) := by
  refine ⟨fun r => rfl, ?_, ?_, ?_, ?_⟩
  · intro r h
    simp [loopStep]
    omega
  · intro r h
    simp [loopStep]
    omega
  · intro r h
    simp [loopStep, h]
  · intro pre post
    have hL : ∀ r', r' < 5 → (run_loop r' (List.replicate 5 .fail ++ post)).1 ≤ 5 :=
      fun r' hr' => run_loop_replicate_fail_le 5 r' post (by omega) hr'
    exact run_loop_front_le pre 0 (List.replicate 5 .fail ++ post) 5 (by omega) hL

/-- Witness for C9: the counter goes 0 →(fail)→ 1, resets on success,
breaks at the fifth consecutive failure, and a bare run of five failures
starts at most five cycles. -/
theorem run_loop_failure_counter_witness :
    loopStep 0 .ok = some 0 ∧ loopStep 0 .fail = some 1 ∧ loopStep 0 .exc = some 1 ∧
    loopStep 4 .fail = none ∧
    (run_loop 0 (([] : List LoopEvent) ++ (List.replicate 5 .fail ++ []))).1 ≤
      ([] : List LoopEvent).length + 5 :=
  ⟨run_loop_failure_counter.1 0,
   run_loop_failure_counter.2.1 0 (by omega),
   run_loop_failure_counter.2.2.1 0 (by omega),
   run_loop_failure_counter.2.2.2.1 4 (by omega),
   run_loop_failure_counter.2.2.2.2 [] []⟩
